import Mathlib

set_option maxRecDepth 100000

/-!
Verification of the plivo in-memory pub/sub broker (Go sources under
`internal/pubsub`).  The Go code is shallowly embedded: the Hub's maps become
association lists, buffered channels become lists (front = oldest element),
`select` with `default` becomes a capacity test, and each Go function becomes a
Lean function carrying the same name.  All definitions are executable so that
concrete scenarios can be evaluated.
-/

namespace Plivo

/-- Payload of a published message (`MessageData` in `message.go`); the payload
is opaque to the broker, modelled as a string. -/
structure MessageData where
  id : String
  payload : String
deriving DecidableEq, Repr

/-- A message routed through the hub (`PubSubMessage` in `message.go`);
`time.Time` is modelled as a natural-number instant. -/
structure PubSubMessage where
  topic : String
  message : MessageData
  timestamp : Nat
deriving DecidableEq, Repr

/-- A serialized frame sitting in a client's outbound channel.  The Go code
stores `[]byte` produced by the `create*MessageBytes` helpers of `hub.go`; we
keep the structured content instead of the bytes. -/
inductive Frame where
  | event (m : PubSubMessage)
  | ack (requestID topic status : String)
  | error (requestID code msg : String)
  | pong (requestID : String)
deriving DecidableEq, Repr

/-- The frame built by `sendSlowConsumerError` via
`createErrorMessageBytes("", "SLOW_CONSUMER", ...)`. -/
def slowConsumerFrame : Frame :=
  Frame.error "" "SLOW_CONSUMER" "Client queue overflow, disconnecting"

/-! ### Association lists

Go `map`s are embedded as association lists.  `aset` overwrites the value of an
existing key in place (Go `m[k] = v`), `aerase` removes a key (Go `delete`). -/

/-- Lookup in an association list (Go map read `m[k]`). -/
def alookup {κ α : Type} [DecidableEq κ] : List (κ × α) → κ → Option α
  | [], _ => none
  | (k', v) :: rest, k => if k' = k then some v else alookup rest k

/-- Map write `m[k] = v`: replace the binding of `k` (association lists built
by these helpers carry at most one binding per key, as a Go map does), or
append a new binding when the key is absent. -/
def aset {κ α : Type} [DecidableEq κ] : List (κ × α) → κ → α → List (κ × α)
  | [], k, v => [(k, v)]
  | (k', v') :: rest, k, v =>
    if k' = k then (k, v) :: rest else (k', v') :: aset rest k v

/-- Map delete `delete(m, k)`. -/
def aerase {κ α : Type} [DecidableEq κ] : List (κ × α) → κ → List (κ × α)
  | [], _ => []
  | (k', v') :: rest, k =>
    if k' = k then aerase rest k else (k', v') :: aerase rest k

theorem alookup_aset_self {κ α : Type} [DecidableEq κ]
    (l : List (κ × α)) (k : κ) (v : α) : alookup (aset l k v) k = some v := by
  induction l with
  | nil => simp [aset, alookup]
  | cons e rest ih =>
    rcases e with ⟨k', v'⟩
    by_cases he : k' = k
    · simp [aset, alookup, he]
    · simpa [aset, alookup, he] using ih

theorem alookup_aset_ne {κ α : Type} [DecidableEq κ]
    (l : List (κ × α)) (k k' : κ) (v : α) (hk : k' ≠ k) :
    alookup (aset l k v) k' = alookup l k' := by
  have hkk : ¬ (k = k') := fun hc => hk hc.symm
  induction l with
  | nil => simp [aset, alookup, hkk]
  | cons e rest ih =>
    rcases e with ⟨ke, ve⟩
    by_cases he : ke = k
    · simp [aset, alookup, he, hkk]
    · by_cases he' : ke = k'
      · simp [aset, alookup, he, he', hk]
      · simpa [aset, alookup, he, he'] using ih

theorem aset_eq_self {κ α : Type} [DecidableEq κ]
    (l : List (κ × α)) (k : κ) (v : α)
    (hl : alookup l k = some v) : aset l k v = l := by
  induction l with
  | nil => simp [alookup] at hl
  | cons e rest ih =>
    rcases e with ⟨ke, ve⟩
    by_cases he : ke = k
    · simp only [alookup, he, if_true, Option.some.injEq] at hl
      simp [aset, he, hl]
    · simp only [alookup, he, if_false] at hl
      simp [aset, he, ih hl]

theorem alookup_aerase_self {κ α : Type} [DecidableEq κ]
    (l : List (κ × α)) (k : κ) : alookup (aerase l k) k = none := by
  induction l with
  | nil => simp [aerase, alookup]
  | cons e rest ih =>
    rcases e with ⟨ke, ve⟩
    by_cases he : ke = k
    · simpa [aerase, he] using ih
    · simpa [aerase, alookup, he] using ih

theorem alookup_aerase_ne {κ α : Type} [DecidableEq κ]
    (l : List (κ × α)) (k k' : κ) (hk : k' ≠ k) :
    alookup (aerase l k) k' = alookup l k' := by
  have hkk : ¬ (k = k') := fun hc => hk hc.symm
  induction l with
  | nil => simp [aerase]
  | cons e rest ih =>
    rcases e with ⟨ke, ve⟩
    by_cases he : ke = k
    · simpa [aerase, alookup, he, hkk] using ih
    · by_cases he' : ke = k'
      · simp [aerase, alookup, he, he', hk]
      · simpa [aerase, alookup, he, he'] using ih

theorem alookup_map_snd {κ α β : Type} [DecidableEq κ]
    (l : List (κ × α)) (f : κ → α → β) (k : κ) :
    alookup (l.map (fun e => (e.1, f e.1 e.2))) k = (alookup l k).map (f k) := by
  induction l with
  | nil => simp [alookup]
  | cons e rest ih =>
    by_cases he : e.1 = k
    · subst he; simp [alookup]
    · simpa [alookup, he] using ih

/-! ### Connection / backpressure state machine (`client.go`)

The client's buffered channel `send` (capacity 100) is a list with the oldest
element at the front; a Go non-blocking channel send succeeds exactly when the
buffer has room, a non-blocking receive exactly when it is non-empty.
`queueSize` is the `int` counter guarded by the client's mutex; it is an `Int`
because `handleQueueOverflow` decrements it without a positivity guard. -/

/-- Mutable per-connection state of a `Client`. -/
structure ClientState where
  send : List Frame
  capacity : Nat
  queueSize : Int
  slowConsumer : Bool
deriving DecidableEq, Repr

/-- `NewClient`: fresh connection state (`make(chan []byte, 100)`,
`maxQueueSize: 100`, `queueSize: 0`, `slowConsumer: false`). -/
def NewClient : ClientState :=
  { send := [], capacity := 100, queueSize := 0, slowConsumer := false }

/-- `sendSlowConsumerError` (client.go 277-290): best-effort non-blocking
enqueue of the terminal `SLOW_CONSUMER` error frame.  It does not touch
`queueSize`; the scheduled `conn.Close()` is an external effect. -/
def sendSlowConsumerError (c : ClientState) : ClientState :=
  if c.send.length < c.capacity then
    { c with send := c.send ++ [slowConsumerFrame] }
  else c

/-- `handleQueueOverflow` (client.go 256-274).  Note that the Go function takes
no argument: the new frame is not available to it.  The outer
`case <-c.send:` removes the oldest frame; the inner statement
`case c.send <- <-c.send:` first performs a second receive (evaluating the
right-hand side `<-c.send`) and then re-enqueues that frame.  When the queue
held a single frame the inner receive blocks for ever; the state at the block
point is returned. -/
def handleQueueOverflow (c : ClientState) : ClientState :=
  match c.send with
  | [] =>
    -- outer default: cannot remove any message, mark as slow consumer
    sendSlowConsumerError { c with slowConsumer := true }
  | _oldest :: rest =>
    -- received the oldest frame, `c.queueSize--`
    let c1 : ClientState := { c with send := rest, queueSize := c.queueSize - 1 }
    match rest with
    | [] => c1 -- the inner `<-c.send` blocks: no further transition
    | m2 :: rest2 =>
      -- the inner receive consumed `m2`; the select then re-enqueues it
      if rest2.length < c1.capacity then
        { c1 with send := rest2 ++ [m2], queueSize := c1.queueSize + 1 }
      else
        -- inner default: still cannot add, mark as slow consumer (`m2` lost)
        sendSlowConsumerError { c1 with send := rest2, slowConsumer := true }

/-- `sendWithBackpressure` (client.go 235-253): the deliver contract.  Drops
silently for a slow consumer, otherwise attempts a non-blocking enqueue and on
a full queue falls back to `handleQueueOverflow` — which never sees `data`. -/
def sendWithBackpressure (c : ClientState) (data : Frame) : ClientState :=
  if c.slowConsumer then c
  else if c.send.length < c.capacity then
    { c with send := c.send ++ [data], queueSize := c.queueSize + 1 }
  else
    handleQueueOverflow c

/-- One iteration of `WritePump` (client.go 88-114) that dequeues a frame:
`queueSize` is decremented only when positive. -/
def writePumpStep (c : ClientState) : ClientState :=
  match c.send with
  | [] => c
  | _ :: rest =>
    { c with send := rest,
             queueSize := if c.queueSize > 0 then c.queueSize - 1 else c.queueSize }

/-! ### Hub state (`hub.go`) -/

/-- A pub/sub topic with its embedded replay ring buffer (`Topic` in hub.go):
`recentMessages` always has 100 slots (`make([]*PubSubMessage, 100)`), `nil`
modelled as `none`. -/
structure Topic where
  name : String
  createdAt : Nat
  messageCount : Nat
  subscriberCount : Nat
  recentMessages : List (Option PubSubMessage)
  ringHead : Nat
  ringSize : Nat
deriving DecidableEq, Repr

/-- Aggregate statistics (`Stats` in hub.go); the time-valued fields
(`Uptime`, `startTime`) are outside the model. -/
structure Stats where
  totalClients : Nat
  totalTopics : Nat
  totalMessages : Nat
deriving DecidableEq, Repr

/-- The broker state owned by the hub: live clients with their connection
state, the subscription registry, the topic registry, and the shutdown flag. -/
structure Hub where
  clients : List (Nat × ClientState)
  subscriptions : List (String × List Nat)
  topics : List (String × Topic)
  shuttingDown : Bool
  stats : Stats
deriving DecidableEq, Repr

/-- `NewHub` (hub.go 77-93): empty maps, not shutting down. -/
def NewHub : Hub :=
  { clients := [], subscriptions := [], topics := [],
    shuttingDown := false,
    stats := { totalClients := 0, totalTopics := 0, totalMessages := 0 } }

/-- The topic allocated by `CreateTopic` (hub.go 338-346): zero counters and a
fresh 100-slot ring buffer. -/
def newTopic (name : String) (now : Nat) : Topic :=
  { name := name, createdAt := now, messageCount := 0, subscriberCount := 0,
    recentMessages := List.replicate 100 none, ringHead := 0, ringSize := 0 }

/-- Errors of the administrative topic operations (hub.go 451-454). -/
inductive HubError where
  | topicExists
  | topicNotFound
deriving DecidableEq, Repr

/-- `CreateTopic` (hub.go 330-350). -/
def CreateTopic (h : Hub) (name : String) (now : Nat) : Hub × Option HubError :=
  if (alookup h.topics name).isSome then (h, some HubError.topicExists)
  else
    let ts := aset h.topics name (newTopic name now)
    ({ h with topics := ts,
              stats := { h.stats with totalTopics := ts.length } }, none)

/-- `DeleteTopic` (hub.go 353-365): removes both the topic and its
subscription-registry entry. -/
def DeleteTopic (h : Hub) (name : String) : Hub × Option HubError :=
  if (alookup h.topics name).isNone then (h, some HubError.topicNotFound)
  else
    let ts := aerase h.topics name
    ({ h with topics := ts,
              subscriptions := aerase h.subscriptions name,
              stats := { h.stats with totalTopics := ts.length } }, none)

/-- The ring-buffer insertion inlined in `publishMessage` (hub.go 238-246):
bump `MessageCount`, store at `RingHead`, advance the head mod 100, grow
`RingSize` up to 100. -/
def ringStore (t : Topic) (m : PubSubMessage) : Topic :=
  { t with messageCount := t.messageCount + 1,
           recentMessages := t.recentMessages.set t.ringHead (some m),
           ringHead := (t.ringHead + 1) % 100,
           ringSize := if t.ringSize < 100 then t.ringSize + 1 else t.ringSize }

/-- The fan-out send of `publishMessage` (hub.go 258-262): a raw non-blocking
send on `client.send` with a silent skip when the buffer is full.  It bypasses
`sendWithBackpressure` entirely: no `queueSize` update, no `slowConsumer`
check, no overflow policy. -/
def hubSendEvent (cs : List (Nat × ClientState)) (cid : Nat) (fr : Frame) :
    List (Nat × ClientState) :=
  match alookup cs cid with
  | none => cs
  | some c =>
    if c.send.length < c.capacity then
      aset cs cid { c with send := c.send ++ [fr] }
    else cs

/-- `publishMessage` (hub.go 229-264).  When the topic has no subscriber-set
entry it returns before touching the topic registry or the counters. -/
def publishMessage (h : Hub) (message : PubSubMessage) : Hub :=
  match alookup h.subscriptions message.topic with
  | none => h
  | some subs =>
    let topics' :=
      match alookup h.topics message.topic with
      | none => h.topics
      | some t => aset h.topics message.topic (ringStore t message)
    let stats' := { h.stats with totalMessages := h.stats.totalMessages + 1 }
    let clients' :=
      subs.foldl (fun cs cid => hubSendEvent cs cid (Frame.event message)) h.clients
    { h with topics := topics', stats := stats', clients := clients' }

/-- `subscribeClient` (hub.go 267-280): create the subscriber set on first
subscription, add the client, refresh `SubscriberCount` when the topic exists. -/
def subscribeClient (h : Hub) (cid : Nat) (topic : String) : Hub :=
  let subs :=
    match alookup h.subscriptions topic with
    | none => [cid]
    | some s => if cid ∈ s then s else s ++ [cid]
  let subscriptions' := aset h.subscriptions topic subs
  let topics' :=
    match alookup h.topics topic with
    | none => h.topics
    | some t => aset h.topics topic { t with subscriberCount := subs.length }
  { h with subscriptions := subscriptions', topics := topics' }

/-- `unsubscribeClient` (hub.go 312-327): no-op when the topic has no
subscriber set; otherwise remove the client, prune an emptied set, and refresh
`SubscriberCount` when the topic exists. -/
def unsubscribeClient (h : Hub) (cid : Nat) (topic : String) : Hub :=
  match alookup h.subscriptions topic with
  | none => h
  | some s =>
    let s' := s.erase cid
    let subscriptions' :=
      if s'.isEmpty then aerase h.subscriptions topic
      else aset h.subscriptions topic s'
    let topics' :=
      match alookup h.topics topic with
      | none => h.topics
      | some t => aset h.topics topic { t with subscriberCount := s'.length }
    { h with subscriptions := subscriptions', topics := topics' }

/-- `registerClient` (hub.go 187-199).  The boolean records whether the
connection was closed immediately (the draining rejection). -/
def registerClient (h : Hub) (cid : Nat) (st : ClientState) : Hub × Bool :=
  if h.shuttingDown then (h, true)
  else
    let cs := aset h.clients cid st
    ({ h with clients := cs,
              stats := { h.stats with totalClients := cs.length } }, false)

/-- `unregisterClient` (hub.go 202-226): when the client is unknown nothing
happens (so its send queue is not closed a second time); otherwise remove it
from the live set and from every topic's subscriber set, pruning emptied sets
and refreshing `SubscriberCount`. -/
def unregisterClient (h : Hub) (cid : Nat) : Hub :=
  if (alookup h.clients cid).isNone then h
  else
    let cs := aerase h.clients cid
    let step := fun (acc : List (String × List Nat) × List (String × Topic))
        (e : String × List Nat) =>
      if cid ∈ e.2 then
        let s' := e.2.erase cid
        ((if s'.isEmpty then acc.1 else acc.1 ++ [(e.1, s')]),
         match alookup acc.2 e.1 with
         | some t => aset acc.2 e.1 { t with subscriberCount := s'.length }
         | none => acc.2)
      else (acc.1 ++ [e], acc.2)
    let pruned := h.subscriptions.foldl step ([], h.topics)
    { h with clients := cs,
             subscriptions := pruned.1,
             topics := pruned.2,
             stats := { h.stats with totalClients := cs.length } }

/-- The extraction loop of `GetRecentMessages` (hub.go 288-305) after `lastN`
has been clamped to `n`. -/
def recentCore (t : Topic) (n : Nat) : List PubSubMessage :=
  if n > 0 then
    let start := (t.ringHead + 100 - n) % 100
    (List.range n).filterMap (fun i => t.recentMessages.getD ((start + i) % 100) none)
  else []

/-- The per-topic part of `GetRecentMessages` (hub.go 287-307): clamp `lastN`
to the current ring size when it is non-positive or exceeds the size. -/
def recentFromTopic (t : Topic) (lastN : Int) : List PubSubMessage :=
  recentCore t
    (if lastN ≤ 0 ∨ (t.ringSize : Int) < lastN then t.ringSize else lastN.toNat)

/-- `GetRecentMessages` (hub.go 283-309): empty for an unknown topic. -/
def GetRecentMessages (h : Hub) (topicName : String) (lastN : Int) :
    List PubSubMessage :=
  match alookup h.topics topicName with
  | some t => recentFromTopic t lastN
  | none => []

/-- The snapshot returned per topic by `GetTopics` (hub.go 374-379). -/
structure TopicInfo where
  name : String
  createdAt : Nat
  messageCount : Nat
  subscriberCount : Nat
deriving DecidableEq, Repr

/-- `GetTopics` (hub.go 368-382): a copy of the registry without the live
replay buffers. -/
def GetTopics (h : Hub) : List (String × TopicInfo) :=
  h.topics.map (fun e =>
    (e.1, { name := e.2.name, createdAt := e.2.createdAt,
            messageCount := e.2.messageCount,
            subscriberCount := e.2.subscriberCount }))

/-- `allClientsFlushed` (hub.go 161-174). -/
def allClientsFlushed (h : Hub) : Bool :=
  h.clients.all (fun e => e.2.queueSize ≤ 0)

/-! ### The coordinator loop and the shutdown protocol (`Run`,
`gracefulShutdown`, hub.go 96-158)

`Run` selects among the five routing channels and the shutdown channel; on the
shutdown signal it calls `gracefulShutdown`, whose loop selects only on the
poll ticker and the 5-second timeout and finally force-closes all clients and
returns, ending `Run`.  We embed this as a labelled transition system: a label
the current select does not wait on yields `none` (the sender stays blocked). -/

/-- A routing request on one of the hub's five channels. -/
inductive Req where
  | register (cid : Nat) (st : ClientState)
  | unregister (cid : Nat)
  | publish (m : PubSubMessage)
  | subscribe (cid : Nat) (topic : String)
  | unsubscribe (cid : Nat) (topic : String)
deriving DecidableEq, Repr

/-- An event the coordinator may observe: a routing request, the shutdown
signal (`Shutdown` sets `shuttingDown` before closing the channel), a drain
poll tick, or the drain timeout. -/
inductive Label where
  | req (r : Req)
  | shutdownSignal
  | tick
  | timeout
deriving DecidableEq, Repr

/-- Where the coordinator goroutine is: the `Run` select loop, the
`gracefulShutdown` drain loop, or returned. -/
inductive Mode where
  | running
  | drainLoop
  | terminated
deriving DecidableEq, Repr

/-- Dispatch of one routing request, as in the `Run` select (hub.go 98-113). -/
def hubHandle (h : Hub) (r : Req) : Hub :=
  match r with
  | Req.register cid st => (registerClient h cid st).1
  | Req.unregister cid => unregisterClient h cid
  | Req.publish m => publishMessage h m
  | Req.subscribe cid t => subscribeClient h cid t
  | Req.unsubscribe cid t => unsubscribeClient h cid t

/-- Coordinator goroutine state. -/
structure Broker where
  mode : Mode
  hub : Hub
deriving DecidableEq, Repr

/-- One observation step of the coordinator.  In `running` mode every channel
is selected on; in the drain loop only the ticker and the timeout are
(gracefulShutdown, hub.go 144-157), so routing requests are never consumed
there — `none` means the event cannot be serviced. -/
def brokerStep (b : Broker) (l : Label) : Option Broker :=
  match b.mode, l with
  | Mode.running, Label.req r => some ⟨Mode.running, hubHandle b.hub r⟩
  | Mode.running, Label.shutdownSignal =>
      some ⟨Mode.drainLoop, { b.hub with shuttingDown := true }⟩
  | Mode.running, _ => none
  | Mode.drainLoop, Label.tick =>
      if allClientsFlushed b.hub then some ⟨Mode.terminated, b.hub⟩
      else some ⟨Mode.drainLoop, b.hub⟩
  | Mode.drainLoop, Label.timeout => some ⟨Mode.terminated, b.hub⟩
  | Mode.drainLoop, _ => none
  | Mode.terminated, _ => none

/-! ### Claim C1 — overflow policy of `deliver` -/

/-- An event frame already sitting in the outbound queue, indexed by its
position of arrival. -/
def oldEvent (i : Nat) : Frame :=
  Frame.event { topic := "t", message := { id := "old", payload := "" }, timestamp := i }

/-- An Active connection whose 100-slot outbound queue is full. -/
def fullClient : ClientState :=
  { send := (List.range 100).map oldEvent,
    capacity := 100, queueSize := 100, slowConsumer := false }

/-- The new incoming frame delivered to the full queue. -/
def newEventFrame : Frame :=
  Frame.event { topic := "t", message := { id := "new", payload := "" }, timestamp := 1000 }

/-- Claim C1: on a full queue `deliver` should remove exactly one oldest frame
and enqueue the NEW frame, leaving `queue_len` unchanged with the new frame
present.  The code (`handleQueueOverflow`, client.go 256-274) instead executes
`case c.send <- <-c.send:`, which dequeues a second frame and re-enqueues that
one: delivering `newEventFrame` to the full queue `fullClient` discards the
new frame entirely, removes the two oldest frames `oldEvent 0` and
`oldEvent 1`, re-appends `oldEvent 1` at the back, and leaves the queue one
frame short (99) while the `queueSize` counter still reads 100. -/
theorem overflow_discards_new_frame :
    newEventFrame ∉ (sendWithBackpressure fullClient newEventFrame).send ∧
    (sendWithBackpressure fullClient newEventFrame).send.length = 99 ∧
    (sendWithBackpressure fullClient newEventFrame).queueSize = 100 ∧
    (sendWithBackpressure fullClient newEventFrame).send.head? = some (oldEvent 2) ∧
    (sendWithBackpressure fullClient newEventFrame).send.getLast? = some (oldEvent 1) ∧
    (sendWithBackpressure fullClient newEventFrame).slowConsumer = false := by
  decide

/-! ### Claim C2 — publish fan-out and backpressure -/

/-- The `i`-th message of the claim-C2 overload scenario. -/
def msgC2 (i : Nat) : PubSubMessage :=
  { topic := "t", message := { id := "m", payload := "" }, timestamp := i }

/-- A hub with a single registered subscriber (id 7) of topic `t`. -/
def hubC2start : Hub := subscribeClient (registerClient NewHub 7 NewClient).1 7 "t"

/-- The hub after publishing Q+1 = 101 messages to `t` while the subscriber
consumes nothing. -/
def hubC2final : Hub := ((List.range 101).map msgC2).foldl publishMessage hubC2start

/-- Claim C2: the Coordinator is supposed to apply the `deliver` contract
(overflow policy, `queue_len` increment, slow-consumer escalation) to every
subscriber, so Q+1 publishes leave the subscriber holding the newest Q
messages or marked slow-consumer.  The fan-out of `publishMessage`
(hub.go 257-263) instead performs a raw non-blocking channel send with a
silent skip: after 101 publishes the subscriber holds the OLDEST 100 messages
(`msgC2 0` … `msgC2 99`), the newest message `msgC2 100` was silently skipped,
`queueSize` was never incremented (still 0 after 100 successful enqueues), and
the connection was never marked slow-consumer. -/
theorem publish_fanout_bypasses_overflow_policy :
    alookup hubC2final.clients 7 =
      some { send := (List.range 100).map (fun i => Frame.event (msgC2 i)),
             capacity := 100, queueSize := 0, slowConsumer := false } ∧
    Frame.event (msgC2 100) ∉ (List.range 100).map (fun i => Frame.event (msgC2 i)) ∧
    hubC2final.stats.totalMessages = 101 := by
  decide

/-! ### Claim C3 — publish to a topic with no subscriber-set entry -/

/-- A hub holding topic `t` in the registry with no subscriber-set entry. -/
def hubC3 : Hub := (CreateTopic NewHub "t" 0).1

/-- The message published to `t` in the claim-C3 scenario. -/
def msgC3 : PubSubMessage :=
  { topic := "t", message := { id := "m1", payload := "p" }, timestamp := 1 }

/-- Claim C3 counterexample: the claim states that when the topic exists but
has no subscriber-set entry, the replay buffer is still updated and
`message_count` still incremented.  `publishMessage` (hub.go 230-235) returns
before touching the topic registry: publishing to `hubC3` changes nothing —
`message_count` stays 0, the ring buffer stays empty, and the global counter
stays 0. -/
theorem publish_without_subscribers_skips_replay :
    publishMessage hubC3 msgC3 = hubC3 ∧
    (alookup (publishMessage hubC3 msgC3).topics "t").map Topic.messageCount = some 0 ∧
    (alookup (publishMessage hubC3 msgC3).topics "t").map Topic.ringSize = some 0 ∧
    (publishMessage hubC3 msgC3).stats.totalMessages = 0 := by
  decide

/-- Claim C3 amended: for every publish whose topic has no subscriber-set
entry, `publishMessage` is a complete no-op — it neither delivers nor updates
the replay buffer, `message_count`, or the global message counter. -/
theorem publish_no_subscriber_entry_noop (h : Hub) (m : PubSubMessage)
    (hs : alookup h.subscriptions m.topic = none) : publishMessage h m = h := by
  unfold publishMessage
  rw [hs]

/-- Concrete instance of the amended claim C3. -/
theorem publish_no_subscriber_entry_noop_witness :
    alookup hubC3.subscriptions msgC3.topic = none ∧ publishMessage hubC3 msgC3 = hubC3 :=
  ⟨by decide, publish_no_subscriber_entry_noop hubC3 msgC3 (by decide)⟩

/-! ### Claim C6 — behaviour while draining -/

/-- A hub whose `shuttingDown` flag has been set by `Shutdown`. -/
def hubDraining : Hub := { NewHub with shuttingDown := true }

/-- The message a client tries to publish during draining. -/
def msgC6 : PubSubMessage :=
  { topic := "t", message := { id := "m", payload := "" }, timestamp := 0 }

/-- Claim C6: the claim holds only until the coordinator observes the shutdown
signal.  While the `Run` select loop is still active, a register is refused
with the connection closed and the client set unchanged, and a publish is
served normally; but as soon as the coordinator enters the `gracefulShutdown`
drain loop (hub.go 144-157), which selects only on the poll ticker and the
timeout, publish/subscribe/unsubscribe requests — and registers too — are
never consumed (`brokerStep … = none`): the senders block, they are neither
served nor refused, contradicting the claim for the whole Draining window. -/
theorem draining_stops_serving_routing_ops :
    registerClient hubDraining 1 NewClient = (hubDraining, true) ∧
    brokerStep ⟨Mode.running, hubDraining⟩ (Label.req (Req.publish msgC6)) =
      some ⟨Mode.running, publishMessage hubDraining msgC6⟩ ∧
    brokerStep ⟨Mode.drainLoop, hubDraining⟩ (Label.req (Req.publish msgC6)) = none ∧
    brokerStep ⟨Mode.drainLoop, hubDraining⟩ (Label.req (Req.subscribe 1 "t")) = none ∧
    brokerStep ⟨Mode.drainLoop, hubDraining⟩ (Label.req (Req.unsubscribe 1 "t")) = none ∧
    brokerStep ⟨Mode.drainLoop, hubDraining⟩ (Label.req (Req.register 2 NewClient)) = none := by
  exact ⟨by decide, rfl, rfl, rfl, rfl, rfl⟩

/-! ### Claim C5 — topic lifecycle -/

/-- Lookup in the snapshot returned by `GetTopics` mirrors the registry. -/
theorem alookup_GetTopics (h : Hub) (k : String) :
    alookup (GetTopics h) k =
      (alookup h.topics k).map (fun t =>
        ({ name := t.name, createdAt := t.createdAt,
           messageCount := t.messageCount,
           subscriberCount := t.subscriberCount } : TopicInfo)) := by
  unfold GetTopics
  generalize h.topics = l
  induction l with
  | nil => simp [alookup]
  | cons e rest ih =>
    by_cases he : e.1 = k
    · subst he; simp [alookup]
    · simpa [alookup, he] using ih

/-- Claim C5: `CreateTopic` fails with `AlreadyExists` exactly on a taken name
and otherwise allocates a topic with an empty replay buffer and zero counters;
`DeleteTopic` fails with `NotFound` exactly on an absent name and otherwise
removes both the topic and its subscription entry, after which listing
excludes the name, a second delete fails with `NotFound`, and publishing to
the name is a no-op. -/
theorem topic_lifecycle (h : Hub) (name : String) (now : Nat) :
    ((alookup h.topics name).isSome →
      CreateTopic h name now = (h, some HubError.topicExists)) ∧
    (alookup h.topics name = none →
      (CreateTopic h name now).2 = none ∧
      alookup (CreateTopic h name now).1.topics name = some (newTopic name now) ∧
      (newTopic name now).messageCount = 0 ∧
      (newTopic name now).subscriberCount = 0 ∧
      (newTopic name now).ringSize = 0) ∧
    (alookup h.topics name = none →
      DeleteTopic h name = (h, some HubError.topicNotFound)) ∧
    ((alookup h.topics name).isSome →
      (DeleteTopic h name).2 = none ∧
      alookup (DeleteTopic h name).1.topics name = none ∧
      alookup (DeleteTopic h name).1.subscriptions name = none ∧
      alookup (GetTopics (DeleteTopic h name).1) name = none ∧
      (DeleteTopic (DeleteTopic h name).1 name).2 = some HubError.topicNotFound ∧
      (∀ m : PubSubMessage, m.topic = name →
        publishMessage (DeleteTopic h name).1 m = (DeleteTopic h name).1)) := by
  refine ⟨?_, ?_, ?_, ?_⟩
  · intro hs
    simp [CreateTopic, hs]
  · intro hs
    refine ⟨by simp [CreateTopic, hs], ?_, rfl, rfl, rfl⟩
    simp [CreateTopic, hs, alookup_aset_self]
  · intro hs
    simp [DeleteTopic, hs]
  · intro hs
    obtain ⟨t, halo⟩ := Option.isSome_iff_exists.mp hs
    have hdel : (DeleteTopic h name).1.topics = aerase h.topics name := by
      simp [DeleteTopic, halo]
    have hdels : (DeleteTopic h name).1.subscriptions = aerase h.subscriptions name := by
      simp [DeleteTopic, halo]
    refine ⟨?_, ?_, ?_, ?_, ?_, ?_⟩
    · simp [DeleteTopic, halo]
    · rw [hdel, alookup_aerase_self]
    · rw [hdels, alookup_aerase_self]
    · rw [alookup_GetTopics, hdel, alookup_aerase_self]
      rfl
    · have hnone2 : alookup (DeleteTopic h name).1.topics name = none := by
        rw [hdel]
        exact alookup_aerase_self _ _
      generalize (DeleteTopic h name).1 = hd at hnone2 ⊢
      simp [DeleteTopic, hnone2]
    · intro m hm
      apply publish_no_subscriber_entry_noop
      rw [hm, hdels, alookup_aerase_self]

/-- A hub in which topic `x` exists (created at instant 0). -/
def hubC5 : Hub := (CreateTopic NewHub "x" 0).1

/-- The message used to exercise publish-after-delete in the C5 witness. -/
def msgC5 : PubSubMessage :=
  { topic := "x", message := { id := "m", payload := "" }, timestamp := 3 }

/-- Concrete instance of claim C5 on topic `x`. -/
theorem topic_lifecycle_witness :
    CreateTopic hubC5 "x" 1 = (hubC5, some HubError.topicExists) ∧
    alookup hubC5.topics "x" = some (newTopic "x" 0) ∧
    DeleteTopic NewHub "x" = (NewHub, some HubError.topicNotFound) ∧
    alookup (GetTopics (DeleteTopic hubC5 "x").1) "x" = none ∧
    (DeleteTopic (DeleteTopic hubC5 "x").1 "x").2 = some HubError.topicNotFound ∧
    publishMessage (DeleteTopic hubC5 "x").1 msgC5 = (DeleteTopic hubC5 "x").1 := by
  have h1 := topic_lifecycle hubC5 "x" 1
  have h0 := topic_lifecycle NewHub "x" 0
  have hsome : (alookup hubC5.topics "x").isSome := by decide
  refine ⟨h1.1 hsome, ?_, h0.2.2.1 (by decide), ?_, ?_, ?_⟩
  · exact ((h0.2.1 (by decide)).2.1 : _)
  · exact (h1.2.2.2 hsome).2.2.2.1
  · exact (h1.2.2.2 hsome).2.2.2.2.1
  · exact (h1.2.2.2 hsome).2.2.2.2.2 msgC5 rfl

/-! ### Claim C7 — slow-consumer state is terminal -/

/-- `sendSlowConsumerError` only touches the send queue, never the flag. -/
theorem sendSlowConsumerError_slowConsumer (c : ClientState) :
    (sendSlowConsumerError c).slowConsumer = c.slowConsumer := by
  unfold sendSlowConsumerError
  split <;> rfl

/-- `handleQueueOverflow` never clears the slow-consumer flag. -/
theorem handleQueueOverflow_slowConsumer (c : ClientState)
    (hc : c.slowConsumer = true) : (handleQueueOverflow c).slowConsumer = true := by
  rcases c with ⟨send, cap, qs, slow⟩
  dsimp only at hc
  subst hc
  rcases send with _ | ⟨a, rest⟩
  · simp [handleQueueOverflow, sendSlowConsumerError_slowConsumer]
  · rcases rest with _ | ⟨m2, rest2⟩
    · simp [handleQueueOverflow]
    · simp only [handleQueueOverflow]
      split
      · rfl
      · simp [sendSlowConsumerError_slowConsumer]

/-- Claim C7: once `slowConsumer` is set it is never cleared by any modelled
operation, and every subsequent `deliver` (= `sendWithBackpressure`) returns
the state unchanged — the frame is dropped silently, the queue and
`queueSize` untouched.  The hub fan-out send also never clears the flag. -/
theorem slow_consumer_one_way (c : ClientState) (f : Frame)
    (hc : c.slowConsumer = true) :
    sendWithBackpressure c f = c ∧
    (writePumpStep c).slowConsumer = true ∧
    (handleQueueOverflow c).slowConsumer = true ∧
    (sendSlowConsumerError c).slowConsumer = true ∧
    (∀ (cs : List (Nat × ClientState)) (cid : Nat) (fr : Frame),
      alookup cs cid = some c →
      (alookup (hubSendEvent cs cid fr) cid).map ClientState.slowConsumer = some true) := by
  refine ⟨?_, ?_, handleQueueOverflow_slowConsumer c hc, ?_, ?_⟩
  · simp [sendWithBackpressure, hc]
  · rcases c with ⟨send, cap, qs, slow⟩
    dsimp only at hc
    subst hc
    rcases send with _ | ⟨a, rest⟩ <;> simp [writePumpStep]
  · rw [sendSlowConsumerError_slowConsumer, hc]
  · intro cs cid fr hcs
    unfold hubSendEvent
    rw [hcs]
    dsimp only
    split
    · rw [alookup_aset_self]
      simp [hc]
    · rw [hcs]
      simp [hc]

/-- A connection already marked slow-consumer. -/
def slowClient : ClientState :=
  { send := [], capacity := 100, queueSize := 0, slowConsumer := true }

/-- Concrete instance of claim C7. -/
theorem slow_consumer_one_way_witness :
    sendWithBackpressure slowClient newEventFrame = slowClient ∧
    (writePumpStep slowClient).slowConsumer = true :=
  ⟨(slow_consumer_one_way slowClient newEventFrame rfl).1,
   (slow_consumer_one_way slowClient newEventFrame rfl).2.1⟩

/-! ### Claim C8 — idempotence of unsubscribe and unregister -/

/-- A hub where client 1 subscribed to `t` before the topic was created:
`subscribeClient` ran with no topic entry, so `CreateTopic` later left
`SubscriberCount = 0` although the subscriber set holds one client. -/
def hubC8 : Hub := (CreateTopic (subscribeClient NewHub 1 "t") "t" 0).1

/-- Claim C8 counterexample: client 2 is not subscribed to `t`, yet
`unsubscribeClient` on the pair changes the broker state — it refreshes the
topic's stale `SubscriberCount` from 0 to 1 (hub.go 322-325), so the
operation is not a no-op on every broker state. -/
theorem unsubscribe_nonmember_mutates_state :
    alookup hubC8.subscriptions "t" = some [1] ∧
    (alookup hubC8.topics "t").map Topic.subscriberCount = some 0 ∧
    unsubscribeClient hubC8 2 "t" ≠ hubC8 ∧
    (alookup (unsubscribeClient hubC8 2 "t").topics "t").map Topic.subscriberCount =
      some 1 := by
  decide

/-- Claim C8 amended: `unsubscribe` on a non-subscribed pair is a no-op when
the topic has no subscriber-set entry, and also when the entry is non-empty
and the topic's `subscriber_count` is not stale (absent topic, or count equal
to the set size); repeated `unregister` of an already-removed connection is
always a no-op (in particular the send queue is not closed a second time,
since the whole branch is skipped). -/
theorem unsubscribe_unregister_idempotent (h : Hub) (cid : Nat) (topic : String) :
    (alookup h.subscriptions topic = none → unsubscribeClient h cid topic = h) ∧
    (∀ s : List Nat, alookup h.subscriptions topic = some s → cid ∉ s → s ≠ [] →
      (alookup h.topics topic = none ∨
        (alookup h.topics topic).map Topic.subscriberCount = some s.length) →
      unsubscribeClient h cid topic = h) ∧
    (alookup h.clients cid = none → unregisterClient h cid = h) := by
  refine ⟨?_, ?_, ?_⟩
  · intro hs
    unfold unsubscribeClient
    rw [hs]
  · intro s hs hmem hne hcount
    unfold unsubscribeClient
    rw [hs]
    dsimp only
    have herase : s.erase cid = s := List.erase_of_not_mem hmem
    have hempty : s.isEmpty = false := by
      cases s with
      | nil => exact absurd rfl hne
      | cons a l => rfl
    have hfalse : ¬ (false = true) := by simp
    rw [herase, hempty, if_neg hfalse]
    have hsubs : aset h.subscriptions topic s = h.subscriptions :=
      aset_eq_self _ _ _ hs
    rcases hcount with hcn | hcs
    · rw [hcn]
      dsimp only
      rw [hsubs]
    · rcases halo : alookup h.topics topic with _ | t
      · rw [halo] at hcs
        exact Option.noConfusion hcs
      · rw [halo] at hcs
        have hcs2 : t.subscriberCount = s.length := by simpa using hcs
        have ht : { t with subscriberCount := s.length } = t := by
          cases t
          simp_all
        dsimp only
        rw [ht, aset_eq_self _ _ _ halo, hsubs]
  · intro hc
    unfold unregisterClient
    rw [hc]
    rfl

/-- A hub where topic `t` exists with a consistent subscriber count (client 1
subscribed after creation) and client 5 was never registered. -/
def hubC8W : Hub := subscribeClient (CreateTopic NewHub "t" 0).1 1 "t"

/-- Concrete instance of the amended claim C8. -/
theorem unsubscribe_unregister_idempotent_witness :
    unsubscribeClient hubC8W 2 "missing" = hubC8W ∧
    unsubscribeClient hubC8W 2 "t" = hubC8W ∧
    unregisterClient hubC8W 5 = hubC8W :=
  ⟨(unsubscribe_unregister_idempotent hubC8W 2 "missing").1 (by decide),
   (unsubscribe_unregister_idempotent hubC8W 2 "t").2.1 [1] (by decide) (by decide)
     (by decide) (Or.inr (by decide)),
   (unsubscribe_unregister_idempotent hubC8W 5 "t").2.2 (by decide)⟩

/-! ### Claim C10 — subscribing to a topic that was never created -/

/-- Claim C10: `subscribe` to a never-created topic succeeds — it creates the
subscriber-set entry while no topic record exists — and a subsequent publish
to that topic is delivered to the subscriber and counted by the global
message counter, while nothing is recorded for replay (`recent` stays
empty). -/
theorem subscribe_before_create (h : Hub) (cid : Nat) (t : String)
    (m : PubSubMessage) (cs : ClientState) (n : Int)
    (ht : alookup h.topics t = none)
    (hs : alookup h.subscriptions t = none)
    (hc : alookup h.clients cid = some cs)
    (hroom : cs.send.length < cs.capacity)
    (hm : m.topic = t) :
    alookup (subscribeClient h cid t).subscriptions t = some [cid] ∧
    (subscribeClient h cid t).topics = h.topics ∧
    (subscribeClient h cid t).clients = h.clients ∧
    (publishMessage (subscribeClient h cid t) m).stats.totalMessages =
      h.stats.totalMessages + 1 ∧
    (publishMessage (subscribeClient h cid t) m).topics = h.topics ∧
    alookup (publishMessage (subscribeClient h cid t) m).clients cid =
      some { cs with send := cs.send ++ [Frame.event m] } ∧
    GetRecentMessages (publishMessage (subscribeClient h cid t) m) t n = [] := by
  subst hm
  have h1subs : (subscribeClient h cid m.topic).subscriptions =
      aset h.subscriptions m.topic [cid] := by
    simp [subscribeClient, hs]
  have h1top : (subscribeClient h cid m.topic).topics = h.topics := by
    simp [subscribeClient, ht]
  have h1cl : (subscribeClient h cid m.topic).clients = h.clients := by
    simp [subscribeClient]
  have h1stats : (subscribeClient h cid m.topic).stats = h.stats := by
    simp [subscribeClient]
  have hlook : alookup (subscribeClient h cid m.topic).subscriptions m.topic =
      some [cid] := by
    rw [h1subs]
    exact alookup_aset_self _ _ _
  have hpub : publishMessage (subscribeClient h cid m.topic) m =
      { subscribeClient h cid m.topic with
        stats := { (subscribeClient h cid m.topic).stats with
          totalMessages := (subscribeClient h cid m.topic).stats.totalMessages + 1 },
        clients := hubSendEvent (subscribeClient h cid m.topic).clients cid
          (Frame.event m) } := by
    unfold publishMessage
    rw [hlook]
    dsimp only
    rw [h1top, ht]
    rfl
  have hsent : hubSendEvent (subscribeClient h cid m.topic).clients cid
      (Frame.event m) = aset h.clients cid { cs with send := cs.send ++ [Frame.event m] } := by
    unfold hubSendEvent
    rw [h1cl, hc]
    dsimp only
    rw [if_pos hroom]
  refine ⟨hlook, h1top, h1cl, ?_, ?_, ?_, ?_⟩
  · rw [hpub]
    dsimp only
    rw [h1stats]
  · rw [hpub]
    dsimp only
    exact h1top
  · rw [hpub]
    dsimp only
    rw [hsent]
    exact alookup_aset_self _ _ _
  · unfold GetRecentMessages
    rw [hpub]
    dsimp only
    rw [h1top, ht]

/-- A hub with one registered, fresh client (id 3). -/
def hubC10 : Hub := (registerClient NewHub 3 NewClient).1

/-- The message published to the never-created topic `news`. -/
def msgC10 : PubSubMessage :=
  { topic := "news", message := { id := "m1", payload := "p" }, timestamp := 2 }

/-- Concrete instance of claim C10. -/
theorem subscribe_before_create_witness :
    alookup (subscribeClient hubC10 3 "news").subscriptions "news" = some [3] ∧
    (publishMessage (subscribeClient hubC10 3 "news") msgC10).stats.totalMessages =
      hubC10.stats.totalMessages + 1 ∧
    alookup (publishMessage (subscribeClient hubC10 3 "news") msgC10).clients 3 =
      some { NewClient with send := NewClient.send ++ [Frame.event msgC10] } ∧
    GetRecentMessages (publishMessage (subscribeClient hubC10 3 "news") msgC10) "news" 5 = [] := by
  have hmain := subscribe_before_create hubC10 3 "news" msgC10 NewClient 5
    (by decide) (by decide) (by decide) (by decide) rfl
  exact ⟨hmain.1, hmain.2.2.2.1, hmain.2.2.2.2.2.1, hmain.2.2.2.2.2.2⟩

/-! ### Claims C4 and C9 — the replay ring buffer

`appendAll` is the topic obtained by publishing `ms` in order into a fresh
topic's ring buffer; `RingInv` characterises its ring fields, and
`recentCore_spec` shows that extraction returns a suffix of `ms`. -/

/-- Default value used with `List.getD` when reading a ring slot's content. -/
def mdefault : PubSubMessage :=
  { topic := "", message := { id := "", payload := "" }, timestamp := 0 }

/-- The topic after the envelopes `ms` were appended, in order, to a fresh
topic's replay buffer via the ring-store step of `publishMessage`. -/
def appendAll (name : String) (now : Nat) (ms : List PubSubMessage) : Topic :=
  ms.foldl ringStore (newTopic name now)

/-- Ring-buffer invariant after appending `ms`: head and size are determined
by the count of appends, and the slot of each of the last `min k 100`
envelopes holds that envelope. -/
def RingInv (ms : List PubSubMessage) (t : Topic) : Prop :=
  t.ringHead = ms.length % 100 ∧
  t.ringSize = min ms.length 100 ∧
  t.recentMessages.length = 100 ∧
  ∀ p : Nat, p < ms.length → ms.length ≤ p + 100 →
    t.recentMessages[p % 100]? = some (some (ms.getD p mdefault))

theorem ringInv_ringStore (ms : List PubSubMessage) (t : Topic)
    (m : PubSubMessage) (h : RingInv ms t) :
    RingInv (ms ++ [m]) (ringStore t m) := by
  obtain ⟨hh, hs, hl, hslot⟩ := h
  refine ⟨?_, ?_, ?_, ?_⟩
  · show (t.ringHead + 1) % 100 = (ms ++ [m]).length % 100
    rw [hh, List.length_append, List.length_singleton]
    omega
  · show (if t.ringSize < 100 then t.ringSize + 1 else t.ringSize) =
      min (ms ++ [m]).length 100
    rw [hs, List.length_append, List.length_singleton]
    split <;> omega
  · show (t.recentMessages.set t.ringHead (some m)).length = 100
    rw [List.length_set, hl]
  · intro p hp hp2
    rw [List.length_append, List.length_singleton] at hp hp2
    show (t.recentMessages.set t.ringHead (some m))[p % 100]? =
      some (some ((ms ++ [m]).getD p mdefault))
    by_cases hpe : p = ms.length
    · subst hpe
      rw [hh, List.getElem?_set_self (by rw [hl]; omega)]
      rw [List.getD_eq_getElem?_getD,
          List.getElem?_append_right (Nat.le_refl _), Nat.sub_self]
      rfl
    · have hplt : p < ms.length := by omega
      have hne : t.ringHead ≠ p % 100 := by rw [hh]; omega
      rw [List.getElem?_set_ne hne]
      rw [List.getD_eq_getElem?_getD, List.getElem?_append_left hplt,
          ← List.getD_eq_getElem?_getD]
      exact hslot p hplt (by omega)

theorem ringInv_appendAll (name : String) (now : Nat)
    (ms : List PubSubMessage) : RingInv ms (appendAll name now ms) := by
  induction ms using List.reverseRecOn with
  | nil =>
    refine ⟨rfl, rfl, by simp [appendAll, newTopic], ?_⟩
    intro p hp
    simp at hp
  | append_singleton l a ih =>
    have hfold : appendAll name now (l ++ [a]) =
        ringStore (appendAll name now l) a := by
      unfold appendAll
      rw [List.foldl_append]
      rfl
    rw [hfold]
    exact ringInv_ringStore l _ a ih

/-- Auxiliary: a `filterMap` whose function is total on `range n` is a `map`. -/
theorem filterMap_range_eq_map {α : Type} (n : Nat) (f : Nat → Option α)
    (g : Nat → α) (hfg : ∀ i, i < n → f i = some (g i)) :
    (List.range n).filterMap f = (List.range n).map g := by
  induction n with
  | zero => simp
  | succ m ih =>
    rw [List.range_succ, List.filterMap_append, List.map_append,
        ih (fun i hi => hfg i (by omega))]
    simp [hfg m (by omega)]

/-- Auxiliary: reading `l` at positions `j, j+1, …` yields `l.drop j`. -/
theorem map_range_getD_drop {α : Type} (l : List α) (j n : Nat) (d : α)
    (hn : n = l.length - j) :
    (List.range n).map (fun i => l.getD (j + i) d) = l.drop j := by
  subst hn
  apply List.ext_getElem?
  intro i
  rw [List.getElem?_drop, List.getElem?_map]
  by_cases hi : i < l.length - j
  · rw [List.getElem?_range hi]
    have hij : j + i < l.length := by omega
    rw [List.getElem?_eq_getElem hij]
    show some (l.getD (j + i) d) = some l[j + i]
    rw [List.getD_eq_getElem?_getD, List.getElem?_eq_getElem hij]
    rfl
  · rw [List.getElem?_eq_none (l := List.range (l.length - j))
        (by rw [List.length_range]; omega)]
    rw [List.getElem?_eq_none (by omega)]
    rfl

/-- Extraction from a ring satisfying `RingInv`: for any effective count
`n ≤ min k 100` the loop of `GetRecentMessages` returns exactly the last `n`
envelopes in order. -/
theorem recentCore_spec (ms : List PubSubMessage) (t : Topic) (n : Nat)
    (hinv : RingInv ms t) (hn : n ≤ min ms.length 100) :
    recentCore t n = ms.drop (ms.length - n) := by
  obtain ⟨hh, hs, hl, hslot⟩ := hinv
  rcases Nat.eq_zero_or_pos n with hn0 | hpos
  · subst hn0
    simp [recentCore, List.drop_length]
  · unfold recentCore
    rw [if_pos hpos]
    dsimp only
    have hklen : ∀ i, i < n →
        t.recentMessages.getD (((t.ringHead + 100 - n) % 100 + i) % 100) none =
          some (ms.getD (ms.length - n + i) mdefault) := by
      intro i hi
      have hidx : ((t.ringHead + 100 - n) % 100 + i) % 100 =
          (ms.length - n + i) % 100 := by
        rw [hh]
        omega
      rw [hidx, List.getD_eq_getElem?_getD,
          hslot (ms.length - n + i) (by omega) (by omega)]
      rfl
    rw [filterMap_range_eq_map n _ _ hklen]
    exact map_range_getD_drop ms (ms.length - n) n mdefault (by omega)

/-- Claim C4: for a topic whose ring buffer received the `k` envelopes `ms`,
`recent(n)` with `0 < n` returns exactly the `min n (min k 100)` most recent
envelopes, as a suffix of `ms` in chronological (oldest-first) order — so for
`k ≤ 100` these are the last `min n k` envelopes, and for `k > 100` (each
append having overwritten the oldest slot) never any envelope older than the
100 most recent. -/
theorem replay_recent_chronological (ms : List PubSubMessage) (tname : String)
    (now : Nat) (h : Hub) (key : String) (n : Nat) (hn : 0 < n)
    (hl : alookup h.topics key = some (appendAll tname now ms)) :
    GetRecentMessages h key (n : Int) =
      ms.drop (ms.length - min n (min ms.length 100)) ∧
    (GetRecentMessages h key (n : Int)).length = min n (min ms.length 100) := by
  have hinv := ringInv_appendAll tname now ms
  have heq : GetRecentMessages h key (n : Int) =
      recentFromTopic (appendAll tname now ms) (n : Int) := by
    unfold GetRecentMessages
    rw [hl]
  have hc : (if (n : Int) ≤ 0 ∨ ((appendAll tname now ms).ringSize : Int) < (n : Int)
        then (appendAll tname now ms).ringSize else (n : Int).toNat) =
      min n (min ms.length 100) := by
    rw [hinv.2.1]
    split <;> omega
  have hmain := recentCore_spec ms (appendAll tname now ms)
    (min n (min ms.length 100)) hinv (by omega)
  constructor
  · rw [heq]
    unfold recentFromTopic
    rw [hc]
    exact hmain
  · rw [heq]
    unfold recentFromTopic
    rw [hc, hmain, List.length_drop]
    omega

/-- The three envelopes of the C4/C9 witness scenario, in publish order. -/
def msgsW4 : List PubSubMessage :=
  [{ topic := "t", message := { id := "a", payload := "" }, timestamp := 0 },
   { topic := "t", message := { id := "b", payload := "" }, timestamp := 1 },
   { topic := "t", message := { id := "c", payload := "" }, timestamp := 2 }]

/-- A hub whose topic `t` received the three envelopes `msgsW4`. -/
def hubW4 : Hub := { NewHub with topics := [("t", appendAll "t" 0 msgsW4)] }

/-- Concrete instance of claim C4: `recent(2)` after 3 appends returns the
last two envelopes, oldest first. -/
theorem replay_recent_chronological_witness :
    0 < 2 ∧ GetRecentMessages hubW4 "t" ((2 : Nat) : Int) = msgsW4.drop 1 := by
  refine ⟨by decide, ?_⟩
  have hm := replay_recent_chronological msgsW4 "t" 0 hubW4 "t" 2
    (by decide) (by decide)
  rw [hm.1]
  decide

/-- The single message published in the claim-C9 counterexample. -/
def msgC9 : PubSubMessage :=
  { topic := "t", message := { id := "m1", payload := "p" }, timestamp := 5 }

/-- A hub where topic `t` was created, client 1 subscribed, and `msgC9` was
published (so the ring buffer holds one envelope). -/
def hubC9 : Hub :=
  publishMessage (subscribeClient (CreateTopic NewHub "t" 0).1 1 "t") msgC9

/-- Claim C9 counterexample: the claim says `recent(n)` with `n ≤ 0` returns
an empty sequence; `GetRecentMessages` (hub.go 288-290) instead clamps
non-positive `lastN` up to `RingSize`, returning the whole buffer. -/
theorem recent_nonpositive_not_empty :
    GetRecentMessages hubC9 "t" 0 = [msgC9] ∧
    GetRecentMessages hubC9 "t" (-5) = [msgC9] ∧
    GetRecentMessages hubC9 "t" 0 ≠ [] := by
  decide

/-- Claim C9 amended: for `n ≤ 0`, `recent` is clamped to the full current
buffer — it returns all `min k 100` stored envelopes (hence empty exactly
when the buffer is empty) — and an absent topic yields an empty sequence; no
error is produced in either case. -/
theorem recent_nonpositive_returns_all (ms : List PubSubMessage)
    (tname : String) (now : Nat) (h : Hub) (key : String) (lastN : Int)
    (hln : lastN ≤ 0) :
    (alookup h.topics key = some (appendAll tname now ms) →
      GetRecentMessages h key lastN = ms.drop (ms.length - min ms.length 100)) ∧
    (alookup h.topics key = none → GetRecentMessages h key lastN = []) := by
  constructor
  · intro hl
    have hinv := ringInv_appendAll tname now ms
    unfold GetRecentMessages
    rw [hl]
    dsimp only
    unfold recentFromTopic
    rw [if_pos (Or.inl hln), hinv.2.1]
    exact recentCore_spec ms _ (min ms.length 100) hinv (Nat.le_refl _)
  · intro hl
    unfold GetRecentMessages
    rw [hl]

/-- Concrete instance of the amended claim C9: `recent(-5)` on the 3-envelope
topic returns all three envelopes, and on an absent topic returns `[]`. -/
theorem recent_nonpositive_returns_all_witness :
    (-5 : Int) ≤ 0 ∧ GetRecentMessages hubW4 "t" (-5) = msgsW4 ∧
    GetRecentMessages hubW4 "missing" (-5) = [] := by
  have hm := recent_nonpositive_returns_all msgsW4 "t" 0 hubW4 "t" (-5) (by decide)
  have hm2 := recent_nonpositive_returns_all msgsW4 "t" 0 hubW4 "missing" (-5) (by decide)
  refine ⟨by decide, ?_, hm2.2 (by decide)⟩
  rw [hm.1 (by decide)]
  decide

end Plivo
